import Mathlib

/-!
Shallow embedding of the authenticated RPC service framework of
`src/Core/Tornado/Server/TornadoService.py` (class `TornadoService`).

The embedding follows the source line by line:

* class-level state (`__FLAG_INIT_DONE`, `_stats`, descriptor fields) becomes
  `ServiceState`;
* per-request instance state (`self._httpError`, `self.credDict`,
  `self.authorized`, `self.method`, `self.rawContent`, the Tornado write
  buffer and finished flag) becomes `ReqState`;
* the Tornado entry points `initialize` / `prepare` / `post` / `__executeMethod`
  / `__write_return` / `reportUnauthorizedAccess` become functions on these
  states; a Python exception escaping a method is an `Option PyExc` result
  (the state is kept so that an already-sent response survives, exactly as a
  sent HTTP response survives a later exception in the real server);
* the external collaborators that are not part of this repository are
  parameters: the policy evaluator `AuthManager.authQuery` is an opaque
  function argument, the service-specific hook `initializeHandler` and the
  `export_*`/`auth_*` tables contributed by a concrete handler subclass are
  fields of `HandlerClass`, and the certificate-chain extraction
  `_gatherPeerCredentials` is represented by its result
  (`Request.peerCredentials = none` means the chain is absent/unparseable and
  the extraction raises).

Two fields of `ReqState` (`gateCall`, `invoked`) are pure history variables:
they record that the authorization gate was consulted (with which arguments
and verdict) and that an `export_*` body was actually entered.  No function
branches on them.
-/

namespace DiracTornado

/-- Flat JSON-like values: the fragment of the wire encoding that the
service envelope (`S_OK` / `S_ERROR` dictionaries and their fields) uses. -/
inductive JValue
  | null
  | bool (b : Bool)
  | num (n : Int)
  | str (s : String)
deriving DecidableEq, Repr

/-- Python dictionary with string keys, as an association list. -/
abbrev DDict : Type := List (String × JValue)

/-- Single-quote character, used when spelling Python `repr` output. -/
def sq : String := (Char.ofNat 39).toString

/-- Modelled from the spec: the Success envelope of the wire protocol,
`S_OK(v)` builds the dictionary with keys "OK" and "Value"
(`DIRAC.S_OK` itself is imported by the source but not part of src/). -/
def S_OK (v : JValue) : DDict :=
  [("OK", JValue.bool true), ("Value", v)]

/-- Modelled from the spec: the Error envelope of the wire protocol,
`S_ERROR(msg)` builds the dictionary with keys "OK" and "Message"
(`DIRAC.S_ERROR` itself is imported by the source but not part of src/). -/
def S_ERROR (msg : String) : DDict :=
  [("OK", JValue.bool false), ("Message", JValue.str msg)]

/-- Modelled from the spec: `S_ERROR(errno, msg)`, the Error envelope carrying
a numeric error code, as used by `reportUnauthorizedAccess` with `ENOAUTH`. -/
def S_ERROR_errno (errno : Int) (msg : String) : DDict :=
  [("OK", JValue.bool false), ("Message", JValue.str msg),
   ("Errno", JValue.num errno)]

/-- Modelled from the spec: an Error envelope that additionally carries the
internal call-stack diagnostic field that must be stripped before wire
serialization. -/
def S_ERROR_withStack (msg stack : String) : DDict :=
  S_ERROR msg ++ [("CallStack", JValue.str stack)]

/-- Modelled from the spec: the numeric value of `DErrno.ENOAUTH`
(not part of src/; the exact number is not claim-relevant). -/
def ENOAUTH : Int := 1112

/-- Membership test of a key, Python `k in d` on a dict. -/
def dictHasKey (d : DDict) (k : String) : Bool :=
  d.any (fun kv => kv.1 == k)

/-- Removal of a key, Python `del d[k]`. -/
def dictDelKey (d : DDict) (k : String) : DDict :=
  d.filter (fun kv => kv.1 != k)

/-- Test whether the character list `pat` is an initial segment of `s`. -/
def charsStartWith : List Char → List Char → Bool
  | [], _ => true
  | _ :: _, [] => false
  | a :: as, b :: bs => a == b && charsStartWith as bs

/-- Test whether the character list `pat` occurs inside `s`. -/
def charsContain (pat : List Char) : List Char → Bool
  | [] => charsStartWith pat []
  | b :: bs => charsStartWith pat (b :: bs) || charsContain pat bs

/-- Python `pat in s` on strings: substring containment. -/
def pyInStr (pat s : String) : Bool :=
  charsContain pat.data s.data

/-- Modelled from the spec: the JSON-equivalent serialization of a value
(`DIRAC.Core.Utilities.JEncode.encode` is imported by the source but not part
of src/), restricted to the flat fragment the service envelope uses; string
escaping is omitted because no claim inspects escaped content. -/
def encodeJ : JValue → String
  | JValue.null => "null"
  | JValue.bool true => "true"
  | JValue.bool false => "false"
  | JValue.num n => toString n
  | JValue.str s => "\"" ++ s ++ "\""

/-- Modelled from the spec: JSON-equivalent serialization of a dictionary. -/
def encodeDict (d : DDict) : String :=
  "\x7b" ++ String.intercalate ", "
      (d.map (fun kv => "\"" ++ kv.1 ++ "\": " ++ encodeJ kv.2)) ++ "\x7d"

/-- Python exception value: class name and message. -/
structure PyExc where
  cls : String
  msg : String
deriving DecidableEq, Repr

/-- Python `repr` of an exception instance: `Exception("boom")` prints as
`Exception('boom')` (faithful for messages without quotes or escapes,
which is all the source paths produce). -/
def pyExcRepr (e : PyExc) : String :=
  e.cls ++ "(" ++ sq ++ e.msg ++ sq ++ ")"

/-- TypeError raised by `self.credDict['DN']` when `credDict` is `None`
(`reportUnauthorizedAccess`, source line 357). -/
def typeErrorNoneSub : PyExc :=
  ⟨"TypeError", "NoneType object is not subscriptable"⟩

/-- TypeError raised by `del dictionary['CallStack']` when the value passed to
`__write_return` is a string rather than a dict. -/
def typeErrorStrDel : PyExc :=
  ⟨"TypeError", "str object does not support item deletion"⟩

/-- RuntimeError raised by Tornado for `write()` after `finish()`. -/
def runtimeErrorWrite : PyExc :=
  ⟨"RuntimeError", "Cannot write() after finish()"⟩

/-- RuntimeError raised by Tornado for a second `finish()`. -/
def runtimeErrorFinish : PyExc :=
  ⟨"RuntimeError", "finish() called twice"⟩

/-- Return value a Python handler body can hand to `__write_return`: the
usual envelope dict, or a raw string (the binary/bulk-transfer case the
`rawContent` mode exists for). -/
inductive RetVal
  | pyDict (d : DDict)
  | pyStr (s : String)
deriving DecidableEq, Repr

/-- Credentials dictionary produced by `_gatherPeerCredentials`: the fields
the lifecycle itself touches (`credDict['DN']` in the logging line). -/
structure CredDict where
  DN : String
  group : String
deriving DecidableEq, Repr

/-- Record of one `AuthManager.authQuery` call: arguments and verdict
(history variable). -/
structure GateCall where
  methodName : String
  cred : Option CredDict
  hardcodedAuth : Option (List String)
  result : Bool
deriving DecidableEq, Repr

/-- Response materialized on the wire: status line, Content-Type header,
body bytes. -/
structure HttpOut where
  status : Nat
  contentType : String
  body : String
deriving DecidableEq, Repr

/-- Per-request state: the `self.*` attributes of the handler instance
(source `initialize`, lines 162-193) plus the Tornado connection state
(write buffer, finished flag, response actually sent) and the two history
variables `gateCall` / `invoked`. -/
structure ReqState where
  httpError : Nat := 200
  method : String := ""
  rawContent : Bool := false
  credDict : Option CredDict := none
  authorized : Bool := false
  buffered : Option HttpOut := none
  finished : Bool := false
  sent : Option HttpOut := none
  gateCall : Option GateCall := none
  invoked : Option String := none
deriving DecidableEq, Repr

/-- Class-level state of one service handler class: the completion flag
`__FLAG_INIT_DONE` (line 65), the `_stats['requests']` counter (line 97),
whether the descriptor fields (`_authManager`, `_serviceInfoDict`,
monitoring) have been populated, and how many times `initializeHandler`
has run (history variable counting line 131 executions). -/
structure ServiceState where
  flagInitDone : Bool := false
  descriptorPopulated : Bool := false
  hookRuns : Nat := 0
  requests : Nat := 0
deriving DecidableEq, Repr

/-- Handler body: positional arguments to a result or a raised exception. -/
def Handler : Type := List JValue → Except PyExc RetVal

/-- The policy evaluator `AuthManager.authQuery(method, credDict,
hardcodedAuth)` — an external collaborator (not part of src/), hence an
opaque parameter. -/
def AuthQ : Type := String → Option CredDict → Option (List String) → Bool

/-- A concrete service handler subclass: its contributed `auth_*` and
`export_*` attributes, the behavior of `initializeHandler` on its n-th
invocation (true = raises; the hook is arbitrary user code, so its behavior
may differ between invocations), and the behavior of `initializeRequest`. -/
structure HandlerClass where
  subAuth : String → Option (List String)
  subExports : String → Option Handler
  hookRaises : Nat → Bool
  initializeRequest : Option PyExc := none

/-- Embeds `auth_ping = ['all']` (line 412), `auth_echo = ['all']` (line 452)
and `auth_whoami = ['authenticated']` (line 461) of the base class. -/
def baseAuth : String → Option (List String)
  | "ping" => some ["all"]
  | "echo" => some ["all"]
  | "whoami" => some ["authenticated"]
  | _ => none

/-- Embeds `export_ping` (lines 414-450).  The real body returns `S_OK` of
host/process information (version, uptime, load); those values are host- and
clock-dependent and no claim inspects them, so the payload is abstracted to
an opaque string while the envelope shape `S_OK(...)` is kept. -/
def exportPing : Handler :=
  fun _ => Except.ok (RetVal.pyDict (S_OK (JValue.str "ping info")))

/-- Embeds `export_echo` (lines 454-459): returns `S_OK(data)`. -/
def exportEcho : Handler :=
  fun args => Except.ok (RetVal.pyDict (S_OK (args.headD JValue.null)))

/-- Embeds `export_whoami` (lines 463-471).  The real body returns `S_OK` of
the caller's credential dictionary minus the certificate chain; no claim
inspects the payload, so it is abstracted while the envelope is kept. -/
def exportWhoami : Handler :=
  fun _ => Except.ok (RetVal.pyDict (S_OK (JValue.str "credentials")))

/-- Methods `export_*` defined by the base class itself. -/
def baseExports : String → Option Handler
  | "ping" => some exportPing
  | "echo" => some exportEcho
  | "whoami" => some exportWhoami
  | _ => none

/-- Embeds `getattr(self, 'auth_' + method)` (line 219): Python attribute
lookup finds a subclass attribute first, then the base class ones. -/
def lookupAuth (h : HandlerClass) (m : String) : Option (List String) :=
  match h.subAuth m with
  | some a => some a
  | none => baseAuth m

/-- Embeds `getattr(self, 'export_%s' % method)` (line 301): subclass
attribute first, then the base class ones. -/
def lookupExport (h : HandlerClass) (m : String) : Option Handler :=
  match h.subExports m with
  | some f => some f
  | none => baseExports m

/-- Embeds the `rawContent` argument handling of `prepare` (line 200):
`self.get_argument('rawContent', default=False)` yields the string value when
the argument is supplied (so the strings "false" and "0" are truthy) and the
Python `False` when absent; truthiness of a string is non-emptiness. -/
def rawContentOf : Option String → Bool
  | none => false
  | some s => !(s == "")

/-- Incoming HTTP POST request.  `peerCredentials = none` means the client
certificate chain is absent or unparseable, i.e. `_gatherPeerCredentials`
raises (the extraction itself uses `X509Chain`, an external collaborator).
`args` is the already-decoded positional-argument list (line 307-309). -/
structure Request where
  method : String
  rawContent : Option String := none
  args : List JValue := []
  peerCredentials : Option CredDict := none

/-- Embeds `_initMonitoring` (lines 71-99): registers monitoring activities
(collaborator calls, no observable state here) and re-creates
`cls._stats = {'requests': 0, ...}` (line 97). -/
def initMonitoring (s : ServiceState) : ServiceState :=
  { s with requests := 0 }

/-- Embeds `__initializeService` (lines 101-139): populates the descriptor
fields (`log`, `_startTime`, `_authManager`, monitoring, `_serviceInfoDict`,
lines 112-128), then runs `initializeHandler` inside try/except (lines
130-136); only on success sets `__FLAG_INIT_DONE = True` (line 138).
Returns `true` for `S_OK()` and `false` for `S_ERROR('Error while
initializing')`. -/
def initializeService (h : HandlerClass) (s : ServiceState) : ServiceState × Bool :=
  let s1 := initMonitoring { s with descriptorPopulated := true }
  let n := s1.hookRuns
  let s2 := { s1 with hookRuns := n + 1 }
  if h.hookRaises n then (s2, false)
  else ({ s2 with flagInitDone := true }, true)

/-- Embeds `initialize` (lines 162-193): resets the per-request attributes,
runs `__initializeService` when the flag is unset, and — except when that
init attempt fails, where it returns `False` early with `_httpError = 500` —
increments `self._stats['requests']` (line 190).  Tornado ignores the
return value, so it only lives on in the state. -/
def initializeReq (h : HandlerClass) (s : ServiceState) : ServiceState × ReqState :=
  let st : ReqState := {}
  if s.flagInitDone then
    ({ s with requests := s.requests + 1 }, st)
  else
    match initializeService h s with
    | (s1, true) => ({ s1 with requests := s1.requests + 1 }, st)
    | (s1, false) => (s1, { st with httpError := 500 })

/-- Embeds `__write_return` (lines 321-344) combined with the behavior of
Tornado's `RequestHandler.write`: strip `CallStack` (a `del` on a string
value raises TypeError), refuse to write after `finish()`, then either write
the raw value — where Tornado JSON-encodes a dict itself and forces the JSON
content type, but leaves a string untouched under the octet-stream header set
on line 338 — or DIRAC-encode the value under `application/json` (lines
340-344).  Tornado's `json_encode` and the JEncode serializer coincide on
the flat dictionaries that reach this point, so both are `encodeDict`. -/
def writeReturn (st : ReqState) (r : RetVal) : ReqState × Option PyExc :=
  match r with
  | RetVal.pyStr s =>
    if pyInStr "CallStack" s then (st, some typeErrorStrDel)
    else if st.finished then (st, some runtimeErrorWrite)
    else if st.rawContent then
      ({ st with buffered := some ⟨st.httpError, "application/octet-stream", s⟩ }, none)
    else
      ({ st with buffered := some ⟨st.httpError, "application/json",
          encodeJ (JValue.str s)⟩ }, none)
  | RetVal.pyDict d =>
    let d2 := if dictHasKey d "CallStack" then dictDelKey d "CallStack" else d
    if st.finished then (st, some runtimeErrorWrite)
    else if st.rawContent then
      ({ st with buffered := some ⟨st.httpError, "application/json; charset=UTF-8",
          encodeDict d2⟩ }, none)
    else
      ({ st with buffered := some ⟨st.httpError, "application/json",
          encodeDict d2⟩ }, none)

/-- Embeds Tornado's `finish()`: sends the buffered response. -/
def finishReq (st : ReqState) : ReqState × Option PyExc :=
  if st.finished then (st, some runtimeErrorFinish)
  else ({ st with finished := true, sent := st.buffered }, none)

/-- Embeds `reportUnauthorizedAccess` (lines 346-362): builds
`S_ERROR(ENOAUTH, "Unauthorized query")`, logs a line that evaluates
`self.credDict['DN']` — raising TypeError when `credDict` is `None` —
then sets the status code, writes the envelope and finishes. -/
def reportUnauthorizedAccess (st : ReqState) (errorCode : Nat) : ReqState × Option PyExc :=
  match st.credDict with
  | none => (st, some typeErrorNoneSub)
  | some _ =>
    let st1 := { st with httpError := errorCode }
    match writeReturn st1 (RetVal.pyDict (S_ERROR_errno ENOAUTH "Unauthorized query")) with
    | (st2, some e) => (st2, some e)
    | (st2, none) => finishReq st2

/-- Message written by `prepare` when the service could not be initialized
(line 206). -/
def initErrMsg : String :=
  "Service can" ++ sq ++ "t be initialized ! Check logs on the server for more informations."

/-- Embeds lines 205-208 of `prepare`: when the flag is still unset the
already-`encode`d message string is passed to `__write_return` (so the normal
mode double-encodes it) and the request is finished; execution then falls
through to the rest of `prepare`. -/
def prepareStep1 (flagInitDone : Bool) (st : ReqState) : ReqState × Option PyExc :=
  if flagInitDone then (st, none)
  else
    match writeReturn st (RetVal.pyStr (encodeJ (JValue.str initErrMsg))) with
    | (st1, some e) => (st1, some e)
    | (st1, none) => finishReq st1

/-- Embeds lines 210-216 of `prepare`: `self.credDict =
self._gatherPeerCredentials()`, with the broad except branch calling
`reportUnauthorizedAccess(401)` (which itself raises on the `None`
credentials it finds there). -/
def prepareStep2 (req : Request) (st : ReqState) : ReqState × Option PyExc :=
  match req.peerCredentials with
  | some c => ({ st with credDict := some c }, none)
  | none => reportUnauthorizedAccess st 401

/-- Embeds lines 218-225 of `prepare`: resolve `auth_<method>`, consult the
Authorization Gate, record the verdict in `self.authorized`, and on denial
call `reportUnauthorizedAccess()` (default error code 401). -/
def prepareStep3 (h : HandlerClass) (aq : AuthQ) (req : Request) (st : ReqState) :
    ReqState × Option PyExc :=
  let hardcodedAuth := lookupAuth h req.method
  let authz := aq req.method st.credDict hardcodedAuth
  let st1 := { st with
                authorized := authz
                gateCall := some ⟨req.method, st.credDict, hardcodedAuth, authz⟩ }
  if authz then (st1, none) else reportUnauthorizedAccess st1 401

/-- Embeds `prepare` (lines 195-225): store method name and rawContent flag,
then the three steps in source order; a raised exception aborts the rest. -/
def prepare (h : HandlerClass) (aq : AuthQ) (flagInitDone : Bool) (req : Request)
    (st : ReqState) : ReqState × Option PyExc :=
  let st0 := { st with method := req.method, rawContent := rawContentOf req.rawContent }
  match prepareStep1 flagInitDone st0 with
  | (st1, some e) => (st1, some e)
  | (st1, none) =>
    match prepareStep2 req st1 with
    | (st2, some e) => (st2, some e)
    | (st2, none) => prepareStep3 h aq req st2

/-- Embeds `__executeMethod` (lines 284-319): resolve `export_<method>`
(AttributeError becomes the 501 "Unknown method" envelope), then run
`initializeRequest` and the handler body inside try/except (any exception
becomes `S_ERROR(repr(e))` with status 500).  The history variable `invoked`
records that the handler body was actually entered. -/
def executeMethod (h : HandlerClass) (req : Request) (st : ReqState) : ReqState × RetVal :=
  match lookupExport h st.method with
  | none =>
    ({ st with httpError := 501 }, RetVal.pyDict (S_ERROR ("Unknown method " ++ st.method)))
  | some f =>
    match h.initializeRequest with
    | some e => ({ st with httpError := 500 }, RetVal.pyDict (S_ERROR (pyExcRepr e)))
    | none =>
      let st1 := { st with invoked := some st.method }
      match f req.args with
      | Except.ok rv => (st1, rv)
      | Except.error e =>
        ({ st1 with httpError := 500 }, RetVal.pyDict (S_ERROR (pyExcRepr e)))

/-- Embeds `post` (lines 230-250): run `__executeMethod` in the executor,
then write the returned envelope back and finish. -/
def postReq (h : HandlerClass) (req : Request) (st : ReqState) : ReqState × Option PyExc :=
  match executeMethod h req st with
  | (st1, rv) =>
    match writeReturn st1 rv with
    | (st2, some e) => (st2, some e)
    | (st2, none) => finishReq st2

/-- Wire-level outcome of one request: the response the client received, or
Tornado's default error page produced for an exception that escaped before
any response was sent. -/
inductive Outcome
  | response (out : HttpOut)
  | errorPage (status : Nat)
deriving DecidableEq, Repr

/-- Outcome seen by the client given the final request state: the sent
response if one was sent; otherwise Tornado's `_handle_request_exception`
path produced the default 500 error page. -/
def outcomeOf (st : ReqState) : Outcome :=
  match st.sent with
  | some o => Outcome.response o
  | none => Outcome.errorPage 500

/-- One full request against a service class: Tornado constructs the handler
(`initialize`), runs `prepare` — an exception there aborts the request, a
`finish()` there skips the HTTP method — and otherwise runs `post`. -/
def handleRequestFull (h : HandlerClass) (aq : AuthQ) (s : ServiceState) (req : Request) :
    ServiceState × ReqState :=
  match initializeReq h s with
  | (s1, st0) =>
    match prepare h aq s1.flagInitDone req st0 with
    | (st1, some _) => (s1, st1)
    | (st1, none) =>
      if st1.finished then (s1, st1)
      else (s1, (postReq h req st1).1)

/-- One full request, observed at the wire. -/
def handleRequest (h : HandlerClass) (aq : AuthQ) (s : ServiceState) (req : Request) :
    ServiceState × Outcome :=
  match handleRequestFull h aq s req with
  | (s1, st) => (s1, outcomeOf st)

/-- A sequence of requests served one after the other by the same process. -/
def runRequests (h : HandlerClass) (aq : AuthQ) :
    ServiceState → List Request → ServiceState × List Outcome
  | s, [] => (s, [])
  | s, r :: rs =>
    match handleRequest h aq s r with
    | (s1, o) =>
      match runRequests h aq s1 rs with
      | (s2, os) => (s2, o :: os)

/-! ## Basic lemmas about the building blocks -/

/-- Deleting a key really removes it: the deleted dictionary no longer has
the key. -/
theorem dictHasKey_dictDelKey (d : DDict) (k : String) :
    dictHasKey (dictDelKey d k) k = false := by
  induction d with
  | nil => rfl
  | cons kv rest ih =>
    by_cases h : (kv.1 == k) = true
    · have hb : (kv.1 != k) = false := by simp [bne, h]
      rw [dictDelKey, List.filter_cons, hb]
      exact ih
    · have hb : (kv.1 != k) = true := by simp [bne, Bool.not_eq_true] at h ⊢; simp [h]
      have h2 : (kv.1 == k) = false := Bool.not_eq_true _ |>.mp h
      simp [dictDelKey, List.filter_cons, hb, dictHasKey, h2]

/-- The key "CallStack" is absent from the dictionary `__write_return`
actually serializes. -/
theorem dictHasKey_stripped (d : DDict) :
    dictHasKey (if dictHasKey d "CallStack" then dictDelKey d "CallStack" else d)
      "CallStack" = false := by
  by_cases h : dictHasKey d "CallStack" = true
  · simp [h, dictHasKey_dictDelKey]
  · simp [Bool.not_eq_true _ |>.mp h]

/-- The write step never touches the credential, method, gate or invocation
fields, nor the finished flag or the already-sent response. -/
theorem writeReturn_ghost (st : ReqState) (r : RetVal) :
    ((writeReturn st r).1).gateCall = st.gateCall ∧
    ((writeReturn st r).1).invoked = st.invoked ∧
    ((writeReturn st r).1).method = st.method ∧
    ((writeReturn st r).1).credDict = st.credDict ∧
    ((writeReturn st r).1).finished = st.finished ∧
    ((writeReturn st r).1).sent = st.sent := by
  unfold writeReturn
  cases r with
  | pyStr s =>
    by_cases h1 : pyInStr "CallStack" s = true <;>
    by_cases h2 : st.finished = true <;>
    by_cases h3 : st.rawContent = true <;>
    simp [h1, h2, h3]
  | pyDict d =>
    by_cases h2 : st.finished = true <;>
    by_cases h3 : st.rawContent = true <;>
    simp [h2, h3]

/-- A write that does not raise started on an unfinished connection. -/
theorem writeReturn_none_not_finished (st : ReqState) (r : RetVal) (st2 : ReqState)
    (h : writeReturn st r = (st2, none)) : st.finished = false := by
  by_cases h2 : st.finished = true
  · exfalso
    unfold writeReturn at h
    cases r with
    | pyStr s =>
      by_cases h1 : pyInStr "CallStack" s = true <;> simp [h1, h2] at h
    | pyDict d => simp [h2] at h
  · exact Bool.not_eq_true _ |>.mp h2

/-- The `finish()` step never touches the credential, method, gate or
invocation fields. -/
theorem finishReq_ghost (st : ReqState) :
    ((finishReq st).1).gateCall = st.gateCall ∧
    ((finishReq st).1).invoked = st.invoked ∧
    ((finishReq st).1).method = st.method ∧
    ((finishReq st).1).credDict = st.credDict := by
  unfold finishReq
  by_cases h : st.finished = true <;> simp [h]

/-- A successful `finish()` requires an unfinished connection, marks it
finished and sends the buffer. -/
theorem finishReq_none_char (st st2 : ReqState) (h : finishReq st = (st2, none)) :
    st.finished = false ∧ st2 = { st with finished := true, sent := st.buffered } := by
  unfold finishReq at h
  by_cases hf : st.finished = true
  · simp [hf] at h
  · refine ⟨Bool.not_eq_true _ |>.mp hf, ?_⟩
    simp [hf] at h
    exact h.symm

/-- The plain Error envelope never carries the call-stack key. -/
theorem hasKey_S_ERROR_callstack (msg : String) :
    dictHasKey (S_ERROR msg) "CallStack" = false := rfl

/-- The errno-carrying Error envelope never carries the call-stack key. -/
theorem hasKey_S_ERROR_errno_callstack (errno : Int) (msg : String) :
    dictHasKey (S_ERROR_errno errno msg) "CallStack" = false := rfl

/-- On the good path — service initialized, parseable certificate chain,
gate verdict positive — `prepare` stores the method name, raw-content flag,
credentials and the (positive) gate record, and neither writes nor raises. -/
theorem prepare_good (h : HandlerClass) (aq : AuthQ) (req : Request) (st : ReqState)
    (c : CredDict) (hcred : req.peerCredentials = some c)
    (hauth : aq req.method (some c) (lookupAuth h req.method) = true) :
    prepare h aq true req st =
      ({ st with
          method := req.method
          rawContent := rawContentOf req.rawContent
          credDict := some c
          authorized := true
          gateCall := some ⟨req.method, some c, lookupAuth h req.method, true⟩ }, none) := by
  unfold prepare prepareStep1 prepareStep2 prepareStep3
  simp [hcred, hauth]

/-- C7: for every envelope written to the wire in structured (non-raw) mode —
in particular every Error envelope — the dictionary that gets serialized
never contains the internal CallStack diagnostic field, regardless of whether
the envelope handed to `__write_return` carried one. -/
theorem C7_callstack_stripped (st : ReqState) (d : DDict)
    (hraw : st.rawContent = false) (hfin : st.finished = false) :
    ∃ d2, writeReturn st (RetVal.pyDict d) =
        ({ st with buffered := some ⟨st.httpError, "application/json", encodeDict d2⟩ },
          none) ∧
      dictHasKey d2 "CallStack" = false := by
  refine ⟨if dictHasKey d "CallStack" then dictDelKey d "CallStack" else d, ?_,
    dictHasKey_stripped d⟩
  unfold writeReturn
  simp [hraw, hfin]

/-- Witness for C7: a concrete Error envelope that does carry a CallStack
field, written on a fresh structured-mode request state. -/
theorem C7_callstack_stripped_witness :
    ∃ d2, writeReturn {} (RetVal.pyDict (S_ERROR_withStack "failed" "trace")) =
        ({ ({} : ReqState) with
            buffered := some ⟨200, "application/json", encodeDict d2⟩ }, none) ∧
      dictHasKey d2 "CallStack" = false :=
  C7_callstack_stripped {} (S_ERROR_withStack "failed" "trace") rfl rfl

/-- C5: for every authenticated and authorized request whose method name
resolves to no `export_*` handler, the dispatcher produces the
"Unknown method <name>" Error envelope and the HTTP status is 501. -/
theorem C5_unknown_method_501 (h : HandlerClass) (aq : AuthQ) (s : ServiceState)
    (req : Request) (c : CredDict)
    (hflag : s.flagInitDone = true)
    (hcred : req.peerCredentials = some c)
    (hauth : aq req.method (some c) (lookupAuth h req.method) = true)
    (hexp : lookupExport h req.method = none) :
    ∃ ct, handleRequest h aq s req =
      ({ s with requests := s.requests + 1 },
       Outcome.response
         ⟨501, ct, encodeDict (S_ERROR ("Unknown method " ++ req.method))⟩) := by
  refine ⟨if rawContentOf req.rawContent then "application/json; charset=UTF-8"
    else "application/json", ?_⟩
  unfold handleRequest handleRequestFull initializeReq
  rw [hflag]
  simp only [if_true]
  rw [prepare_good h aq req {} c hcred hauth]
  unfold postReq executeMethod
  simp only [hexp]
  unfold writeReturn finishReq outcomeOf
  cases hrc : rawContentOf req.rawContent <;>
    simp [hrc, hasKey_S_ERROR_callstack]

/-- Witness for C5: a concrete service where the method "nosuch" has no
handler. -/
theorem C5_unknown_method_501_witness :
    ∃ ct, handleRequest
        ⟨fun _ => none, fun _ => none, fun _ => false, none⟩
        (fun _ _ _ => true)
        { flagInitDone := true, descriptorPopulated := true, hookRuns := 1 }
        { method := "nosuch", peerCredentials := some ⟨"/O=Grid/CN=alice", "prod"⟩ } =
      ({ flagInitDone := true, descriptorPopulated := true, hookRuns := 1, requests := 1 },
       Outcome.response
         ⟨501, ct, encodeDict (S_ERROR ("Unknown method " ++ "nosuch"))⟩) :=
  C5_unknown_method_501
    ⟨fun _ => none, fun _ => none, fun _ => false, none⟩
    (fun _ _ _ => true)
    { flagInitDone := true, descriptorPopulated := true, hookRuns := 1 }
    { method := "nosuch", peerCredentials := some ⟨"/O=Grid/CN=alice", "prod"⟩ }
    ⟨"/O=Grid/CN=alice", "prod"⟩ rfl rfl rfl rfl

/-- Always-allowing policy evaluator, used by concrete witnesses. -/
def aqAll : AuthQ := fun _ _ _ => true

/-- Concrete peer credentials used by concrete witnesses. -/
def credAlice : CredDict := ⟨"/O=Grid/CN=alice", "prod"⟩

/-- A service state whose lazy initialization has already completed. -/
def svcReady : ServiceState :=
  { flagInitDone := true, descriptorPopulated := true, hookRuns := 1 }

/-- Handler class whose method "boomer" raises `Exception("boom")`. -/
def hBoom : HandlerClass :=
  ⟨fun _ => none,
   fun m => if m == "boomer"
     then some (fun _ => Except.error ⟨"Exception", "boom"⟩) else none,
   fun _ => false, none⟩

/-- C6 as stated is false on the code: the dispatcher wraps a handler
exception as `S_ERROR(repr(e))`, so for `Exception("boom")` the client
receives Message `Exception('boom')` — not the bare message "boom" the claim
asserts — with HTTP 500. -/
theorem C6_counterexample :
    (handleRequest hBoom aqAll svcReady
        { method := "boomer", peerCredentials := some credAlice }).2 =
      Outcome.response ⟨500, "application/json",
        encodeDict (S_ERROR (pyExcRepr ⟨"Exception", "boom"⟩))⟩ ∧
    pyExcRepr ⟨"Exception", "boom"⟩ ≠ "boom" := by
  constructor
  · decide
  · decide

/-- C6 (amended): a handler exception never propagates past the dispatcher;
the client receives the Error envelope whose Message is the Python `repr` of
the exception (for `Exception("boom")`: `Exception('boom')`) with HTTP
status 500, and the serialized envelope carries no CallStack field. -/
theorem C6_amended_handler_exception (h : HandlerClass) (aq : AuthQ)
    (s : ServiceState) (req : Request) (c : CredDict) (e : PyExc)
    (hflag : s.flagInitDone = true)
    (hcred : req.peerCredentials = some c)
    (hauth : aq req.method (some c) (lookupAuth h req.method) = true)
    (hexp : lookupExport h req.method = some (fun _ => Except.error e))
    (hinit : h.initializeRequest = none)
    (hraw : req.rawContent = none) :
    handleRequest h aq s req =
      ({ s with requests := s.requests + 1 },
       Outcome.response
         ⟨500, "application/json", encodeDict (S_ERROR (pyExcRepr e))⟩) ∧
    dictHasKey (S_ERROR (pyExcRepr e)) "CallStack" = false := by
  refine ⟨?_, hasKey_S_ERROR_callstack _⟩
  unfold handleRequest handleRequestFull initializeReq
  rw [hflag]
  simp only [if_true]
  rw [prepare_good h aq req {} c hcred hauth]
  unfold postReq executeMethod
  simp only [hexp, hinit]
  unfold writeReturn finishReq outcomeOf
  simp [hraw, rawContentOf, hasKey_S_ERROR_callstack]

/-- Witness for the amended C6 at the concrete boom-raising service. -/
theorem C6_amended_handler_exception_witness :
    handleRequest hBoom aqAll svcReady
        { method := "boomer", peerCredentials := some credAlice } =
      ({ svcReady with requests := svcReady.requests + 1 },
       Outcome.response
         ⟨500, "application/json",
          encodeDict (S_ERROR (pyExcRepr ⟨"Exception", "boom"⟩))⟩) ∧
    dictHasKey (S_ERROR (pyExcRepr ⟨"Exception", "boom"⟩)) "CallStack" = false :=
  C6_amended_handler_exception hBoom aqAll svcReady
    { method := "boomer", peerCredentials := some credAlice } credAlice
    ⟨"Exception", "boom"⟩ rfl rfl rfl rfl rfl rfl

/-- Response a request receives when the service could not be initialized:
status 500 with the `prepare`-level error message (double-encoded in the
structured mode, written verbatim under octet-stream in raw mode). -/
def initErrResponse (raw : Bool) : Outcome :=
  if raw then
    Outcome.response ⟨500, "application/octet-stream", encodeJ (JValue.str initErrMsg)⟩
  else
    Outcome.response
      ⟨500, "application/json", encodeJ (JValue.str (encodeJ (JValue.str initErrMsg)))⟩

/-- A request that triggers a failing initialization attempt re-runs the
hook, leaves the completion flag unset, does not count the request, and is
answered with the fatal 500 initialization error. -/
theorem handleRequest_initFail (h : HandlerClass) (aq : AuthQ) (s : ServiceState)
    (req : Request) (hflag : s.flagInitDone = false)
    (hraise : h.hookRaises s.hookRuns = true) :
    handleRequest h aq s req =
      ({ s with descriptorPopulated := true, requests := 0, hookRuns := s.hookRuns + 1 },
       initErrResponse (rawContentOf req.rawContent)) := by
  have hcs : pyInStr "CallStack" (encodeJ (JValue.str initErrMsg)) = false := by decide
  cases hpc : req.peerCredentials with
  | none =>
    cases hrc : rawContentOf req.rawContent <;>
      simp [handleRequest, handleRequestFull, initializeReq, initializeService,
        initMonitoring, prepare, prepareStep1, prepareStep2, prepareStep3,
        reportUnauthorizedAccess, writeReturn, finishReq, outcomeOf, postReq,
        executeMethod, hflag, hraise, hpc, hrc, hcs, initErrResponse]
  | some c =>
    cases haq : aq req.method (some c) (lookupAuth h req.method) <;>
    cases hrc : rawContentOf req.rawContent <;>
      simp [handleRequest, handleRequestFull, initializeReq, initializeService,
        initMonitoring, prepare, prepareStep1, prepareStep2, prepareStep3,
        reportUnauthorizedAccess, writeReturn, finishReq, outcomeOf, postReq,
        executeMethod, hflag, hraise, hpc, haq, hrc, hcs, initErrResponse]

/-- Handler class whose `initializeHandler` raises on its first invocation
and succeeds on every later one, with a trivial exported method "m". -/
def hFlaky : HandlerClass :=
  ⟨fun _ => none,
   fun m => if m == "m"
     then some (fun _ => Except.ok (RetVal.pyDict (S_OK JValue.null))) else none,
   fun n => n == 0, none⟩

/-- Concrete request for method "m" with valid credentials. -/
def reqM : Request := { method := "m", peerCredentials := some credAlice }

/-- C2 as stated is false on the code: after `initializeHandler` raises
during the first request, the completion flag is indeed left unset and that
request receives the fatal 500 error — but the flag being unset makes the
next request call `__initializeService` again, so the setup hook runs a
second time, and when that run succeeds the request is served normally
(HTTP 200) without any process restart. -/
theorem C2_counterexample :
    (runRequests hFlaky aqAll {} [reqM, reqM]).1.hookRuns = 2 ∧
    (runRequests hFlaky aqAll {} [reqM, reqM]).1.flagInitDone = true ∧
    (runRequests hFlaky aqAll {} [reqM, reqM]).2 =
      [initErrResponse false,
       Outcome.response ⟨200, "application/json", encodeDict (S_OK JValue.null)⟩] := by
  refine ⟨by decide, by decide, by decide⟩

/-- C2 (amended): if `initializeHandler` raises during an initialization
attempt, the completion flag is not set and that request receives the fatal
500 "Service can't be initialized" error; each subsequent request re-runs
the initialization, hook included, so as long as every invocation of the
hook raises, the flag stays unset, the hook has run once per request, and
every request is answered with the fatal initialization error — but nothing
prevents a later invocation from succeeding (see the counterexample). -/
theorem C2_amended_init_failure (h : HandlerClass) (aq : AuthQ) (s : ServiceState)
    (reqs : List Request)
    (hall : ∀ n, h.hookRaises n = true) (hflag : s.flagInitDone = false) :
    (runRequests h aq s reqs).1.flagInitDone = false ∧
    (runRequests h aq s reqs).1.hookRuns = s.hookRuns + reqs.length ∧
    (runRequests h aq s reqs).2 =
      reqs.map (fun r => initErrResponse (rawContentOf r.rawContent)) := by
  induction reqs generalizing s with
  | nil => simp [runRequests, hflag]
  | cons r rs ih =>
    have h1 := handleRequest_initFail h aq s r hflag (hall s.hookRuns)
    have h2 := ih { s with descriptorPopulated := true, requests := 0, hookRuns := s.hookRuns + 1 } hflag
    simp only [runRequests, h1, List.map_cons, List.length_cons]
    refine ⟨h2.1, ?_, ?_⟩
    · rw [h2.2.1]
      show s.hookRuns + 1 + rs.length = s.hookRuns + (rs.length + 1)
      omega
    · rw [h2.2.2]

/-- Witness for the amended C2: a service whose hook always raises, hit by
two requests. -/
theorem C2_amended_init_failure_witness :
    (runRequests ⟨fun _ => none, fun _ => none, fun _ => true, none⟩ aqAll {}
        [reqM, reqM]).1.flagInitDone = false ∧
    (runRequests ⟨fun _ => none, fun _ => none, fun _ => true, none⟩ aqAll {}
        [reqM, reqM]).1.hookRuns = ({} : ServiceState).hookRuns + 2 ∧
    (runRequests ⟨fun _ => none, fun _ => none, fun _ => true, none⟩ aqAll {}
        [reqM, reqM]).2 =
      [reqM, reqM].map (fun r => initErrResponse (rawContentOf r.rawContent)) :=
  C2_amended_init_failure ⟨fun _ => none, fun _ => none, fun _ => true, none⟩ aqAll {}
    [reqM, reqM] (fun _ => rfl) rfl

/-- The unauthorized-access path never touches the invocation or gate
history fields. -/
theorem report_ghost (st : ReqState) (c : Nat) :
    ((reportUnauthorizedAccess st c).1).invoked = st.invoked ∧
    ((reportUnauthorizedAccess st c).1).gateCall = st.gateCall := by
  unfold reportUnauthorizedAccess writeReturn finishReq
  cases hcd : st.credDict <;>
  by_cases hf : st.finished = true <;>
  by_cases hr : st.rawContent = true <;>
    simp [hcd, hf, hr, hasKey_S_ERROR_errno_callstack]

/-- A completed (non-raising) unauthorized-access report has finished the
request. -/
theorem report_none_finished (st st2 : ReqState) (c : Nat)
    (h : reportUnauthorizedAccess st c = (st2, none)) : st2.finished = true := by
  unfold reportUnauthorizedAccess writeReturn finishReq at h
  cases hcd : st.credDict with
  | none => rw [hcd] at h; simp at h
  | some cd =>
    rw [hcd] at h
    by_cases hf : st.finished = true <;>
    by_cases hr : st.rawContent = true <;>
      simp [hf, hr, hasKey_S_ERROR_errno_callstack] at h <;>
      · subst h
        rfl

/-- The initialization check of `prepare` never touches the invocation or
gate history fields. -/
theorem prepareStep1_ghost (fl : Bool) (st : ReqState) :
    ((prepareStep1 fl st).1).invoked = st.invoked ∧
    ((prepareStep1 fl st).1).gateCall = st.gateCall := by
  unfold prepareStep1
  cases fl with
  | true => exact ⟨rfl, rfl⟩
  | false =>
    rcases hw : writeReturn st (RetVal.pyStr (encodeJ (JValue.str initErrMsg))) with ⟨st1, e⟩
    have hg := writeReturn_ghost st (RetVal.pyStr (encodeJ (JValue.str initErrMsg)))
    rw [hw] at hg
    cases e with
    | some e2 => simp only [Bool.false_eq_true, if_false, hw]; exact ⟨hg.2.1, hg.1⟩
    | none =>
      simp only [Bool.false_eq_true, if_false, hw]
      have hf := finishReq_ghost st1
      exact ⟨hf.2.1.trans hg.2.1, hf.1.trans hg.1⟩

/-- The credential-gathering step never touches the invocation or gate
history fields. -/
theorem prepareStep2_ghost (req : Request) (st : ReqState) :
    ((prepareStep2 req st).1).invoked = st.invoked ∧
    ((prepareStep2 req st).1).gateCall = st.gateCall := by
  unfold prepareStep2
  cases hpc : req.peerCredentials with
  | none => exact report_ghost st 401
  | some c => exact ⟨rfl, rfl⟩

/-- The gate step never touches the invocation field. -/
theorem prepareStep3_invoked (h : HandlerClass) (aq : AuthQ) (req : Request)
    (st : ReqState) :
    ((prepareStep3 h aq req st).1).invoked = st.invoked := by
  unfold prepareStep3
  cases haq : aq req.method st.credDict (lookupAuth h req.method) with
  | true => simp [haq]
  | false =>
    simp only [haq, Bool.false_eq_true, if_false]
    exact (report_ghost { st with
      authorized := false
      gateCall := some ⟨req.method, st.credDict, lookupAuth h req.method, false⟩ } 401).1

/-- `prepare` as a whole never touches the invocation field. -/
theorem prepare_invoked (h : HandlerClass) (aq : AuthQ) (fl : Bool) (req : Request)
    (st : ReqState) :
    ((prepare h aq fl req st).1).invoked = st.invoked := by
  unfold prepare
  rcases h1 : prepareStep1 fl
      { st with method := req.method, rawContent := rawContentOf req.rawContent }
    with ⟨st1, e1⟩
  have hg1 := prepareStep1_ghost fl
      { st with method := req.method, rawContent := rawContentOf req.rawContent }
  rw [h1] at hg1
  cases e1 with
  | some e => simp only [h1]; exact hg1.1
  | none =>
    simp only [h1]
    rcases h2 : prepareStep2 req st1 with ⟨st2, e2⟩
    have hg2 := prepareStep2_ghost req st1
    rw [h2] at hg2
    cases e2 with
    | some e => exact hg2.1.trans hg1.1
    | none =>
      have hg3 := prepareStep3_invoked h aq req st2
      exact hg3.trans (hg2.1.trans hg1.1)

/-- The fresh per-request state produced by `initialize` has no credentials,
no recorded invocation and an unfinished connection, whether or not lazy
initialization ran or failed. -/
theorem initializeReq_st (h : HandlerClass) (s : ServiceState) :
    ((initializeReq h s).2).invoked = none ∧
    ((initializeReq h s).2).credDict = none ∧
    ((initializeReq h s).2).finished = false := by
  unfold initializeReq initializeService initMonitoring
  by_cases hfl : s.flagInitDone = true
  · simp [hfl]
  · cases hhr : h.hookRaises s.hookRuns <;> simp [hfl, hhr]

/-- A non-raising run of the initialization check with the flag unset leaves
the request finished (the fatal error has been sent). -/
theorem prepareStep1_false_none_finished (st st1 : ReqState)
    (hp : prepareStep1 false st = (st1, none)) : st1.finished = true := by
  unfold prepareStep1 at hp
  simp only [Bool.false_eq_true, if_false] at hp
  rcases hw : writeReturn st (RetVal.pyStr (encodeJ (JValue.str initErrMsg))) with ⟨stw, e⟩
  rw [hw] at hp
  cases e with
  | some e2 => simp at hp
  | none =>
    have hfc := finishReq_none_char stw st1 hp
    rw [hfc.2]

/-- A non-raising credential-gathering step keeps a finished request
finished. -/
theorem prepareStep2_none_finishedT (req : Request) (st st2 : ReqState)
    (hp : prepareStep2 req st = (st2, none)) (hf : st.finished = true) :
    st2.finished = true := by
  unfold prepareStep2 at hp
  cases hpc : req.peerCredentials with
  | none =>
    rw [hpc] at hp
    exact report_none_finished st st2 401 hp
  | some c =>
    rw [hpc] at hp
    simp at hp
    rw [← hp]
    exact hf

/-- A non-raising gate step keeps a finished request finished. -/
theorem prepareStep3_none_finishedT (h : HandlerClass) (aq : AuthQ) (req : Request)
    (st st2 : ReqState)
    (hp : prepareStep3 h aq req st = (st2, none)) (hf : st.finished = true) :
    st2.finished = true := by
  unfold prepareStep3 at hp
  cases haq : aq req.method st.credDict (lookupAuth h req.method) with
  | true =>
    simp [haq] at hp
    rw [← hp]
    exact hf
  | false =>
    simp only [haq, Bool.false_eq_true, if_false] at hp
    exact report_none_finished _ st2 401 hp

/-- When the completion flag is unset, a non-raising `prepare` always leaves
the request finished: the fatal initialization error has been sent and no
handler can run. -/
theorem prepare_flagFalse_finished (h : HandlerClass) (aq : AuthQ) (req : Request)
    (st st' : ReqState)
    (hp : prepare h aq false req st = (st', none)) : st'.finished = true := by
  unfold prepare at hp
  dsimp only at hp
  rcases h1 : prepareStep1 false
      { st with method := req.method, rawContent := rawContentOf req.rawContent }
    with ⟨st1, e1⟩
  rw [h1] at hp
  cases e1 with
  | some e => simp at hp
  | none =>
    dsimp only at hp
    have hf1 := prepareStep1_false_none_finished _ st1 h1
    rcases h2 : prepareStep2 req st1 with ⟨st2, e2⟩
    rw [h2] at hp
    cases e2 with
    | some e => simp at hp
    | none =>
      dsimp only at hp
      have hf2 := prepareStep2_none_finishedT req st1 st2 h2 hf1
      exact prepareStep3_none_finishedT h aq req st2 st' hp hf2

/-- A non-raising `prepare` that leaves the request unfinished must have
taken the good path: the flag was set, the chain yielded credentials `c`,
and the gate was consulted for this method with a positive verdict; the
method name is stored and the invocation history is untouched. -/
theorem prepare_none_unfinished (h : HandlerClass) (aq : AuthQ) (fl : Bool)
    (req : Request) (st st' : ReqState)
    (hcd : st.credDict = none) (_hfin : st.finished = false)
    (hp : prepare h aq fl req st = (st', none)) (hf2 : st'.finished = false) :
    ∃ c, req.peerCredentials = some c ∧
      st'.gateCall = some ⟨req.method, some c, lookupAuth h req.method, true⟩ ∧
      st'.method = req.method ∧ st'.invoked = st.invoked := by
  cases fl with
  | false =>
    have := prepare_flagFalse_finished h aq req st st' hp
    rw [this] at hf2
    simp at hf2
  | true =>
    unfold prepare at hp
    dsimp only at hp
    have h1 : prepareStep1 true
        { st with method := req.method, rawContent := rawContentOf req.rawContent } =
        ({ st with method := req.method, rawContent := rawContentOf req.rawContent },
          none) := rfl
    rw [h1] at hp
    dsimp only at hp
    cases hpc : req.peerCredentials with
    | none =>
      have h2 : prepareStep2 req
          { st with method := req.method, rawContent := rawContentOf req.rawContent } =
          ({ st with method := req.method, rawContent := rawContentOf req.rawContent },
            some typeErrorNoneSub) := by
        unfold prepareStep2 reportUnauthorizedAccess
        rw [hpc]
        simp [hcd]
      rw [h2] at hp
      simp at hp
    | some c =>
      have h2 : prepareStep2 req
          { st with method := req.method, rawContent := rawContentOf req.rawContent } =
          ({ st with method := req.method, rawContent := rawContentOf req.rawContent, credDict := some c }, none) := by
        unfold prepareStep2
        rw [hpc]
      rw [h2] at hp
      dsimp only at hp
      unfold prepareStep3 at hp
      dsimp only at hp
      cases haq : aq req.method (some c) (lookupAuth h req.method) with
      | true =>
        simp [haq] at hp
        refine ⟨c, rfl, ?_, ?_, ?_⟩ <;> rw [← hp]
      | false =>
        simp only [haq, Bool.false_eq_true, if_false] at hp
        have ht := report_none_finished _ st' 401 hp
        rw [ht] at hf2
        simp at hf2

/-- The dispatch step preserves the gate record, and the only invocation it
can add is of the stored method name. -/
theorem postReq_ghost (h : HandlerClass) (req : Request) (st : ReqState) :
    ((postReq h req st).1).gateCall = st.gateCall ∧
    (((postReq h req st).1).invoked = st.invoked ∨
      ((postReq h req st).1).invoked = some st.method) := by
  unfold postReq executeMethod
  cases hex : lookupExport h st.method with
  | none =>
    dsimp only
    rcases hw : writeReturn { st with httpError := 501 }
        (RetVal.pyDict (S_ERROR ("Unknown method " ++ st.method))) with ⟨st2, e⟩
    have hg := writeReturn_ghost { st with httpError := 501 }
        (RetVal.pyDict (S_ERROR ("Unknown method " ++ st.method)))
    rw [hw] at hg
    cases e with
    | some e2 => exact ⟨hg.1, Or.inl hg.2.1⟩
    | none =>
      dsimp only
      have hf := finishReq_ghost st2
      exact ⟨hf.1.trans hg.1, Or.inl (hf.2.1.trans hg.2.1)⟩
  | some f =>
    dsimp only
    cases hir : h.initializeRequest with
    | some e0 =>
      dsimp only
      rcases hw : writeReturn { st with httpError := 500 }
          (RetVal.pyDict (S_ERROR (pyExcRepr e0))) with ⟨st2, e⟩
      have hg := writeReturn_ghost { st with httpError := 500 }
          (RetVal.pyDict (S_ERROR (pyExcRepr e0)))
      rw [hw] at hg
      cases e with
      | some e2 => exact ⟨hg.1, Or.inl hg.2.1⟩
      | none =>
        dsimp only
        have hf := finishReq_ghost st2
        exact ⟨hf.1.trans hg.1, Or.inl (hf.2.1.trans hg.2.1)⟩
    | none =>
      dsimp only
      cases hfa : f req.args with
      | ok rv =>
        dsimp only
        rcases hw : writeReturn { st with invoked := some st.method } rv with ⟨st2, e⟩
        have hg := writeReturn_ghost { st with invoked := some st.method } rv
        rw [hw] at hg
        cases e with
        | some e2 => exact ⟨hg.1, Or.inr hg.2.1⟩
        | none =>
          dsimp only
          have hf := finishReq_ghost st2
          exact ⟨hf.1.trans hg.1, Or.inr (hf.2.1.trans hg.2.1)⟩
      | error e1 =>
        dsimp only
        rcases hw : writeReturn { st with invoked := some st.method, httpError := 500 }
            (RetVal.pyDict (S_ERROR (pyExcRepr e1))) with ⟨st2, e⟩
        have hg := writeReturn_ghost { st with invoked := some st.method, httpError := 500 }
            (RetVal.pyDict (S_ERROR (pyExcRepr e1)))
        rw [hw] at hg
        cases e with
        | some e2 => exact ⟨hg.1, Or.inr hg.2.1⟩
        | none =>
          dsimp only
          have hf := finishReq_ghost st2
          exact ⟨hf.1.trans hg.1, Or.inr (hf.2.1.trans hg.2.1)⟩

/-- Handler class with one trivially succeeding exported method "m". -/
def hOk : HandlerClass :=
  ⟨fun _ => none,
   fun m => if m == "m"
     then some (fun _ => Except.ok (RetVal.pyDict (S_OK JValue.null))) else none,
   fun _ => false, none⟩

/-- C3: for every request, an `export_*` handler body is entered only if the
Authorization Gate (`authQuery` with the request method, the gathered
credentials and the `auth_<method>` static requirement) was executed for that
request and returned true; and "ping" is authorized through the explicit
allow-list `auth_ping = ['all']` handed to the gate, not by skipping it. -/
theorem C3_gate_before_dispatch (h : HandlerClass) (aq : AuthQ) (s : ServiceState)
    (req : Request) (m : String)
    (hping : h.subAuth "ping" = none)
    (hinv : ((handleRequestFull h aq s req).2).invoked = some m) :
    (∃ c, ((handleRequestFull h aq s req).2).gateCall =
        some ⟨req.method, some c, lookupAuth h req.method, true⟩ ∧ m = req.method) ∧
    lookupAuth h "ping" = some ["all"] := by
  refine ⟨?_, by simp [lookupAuth, baseAuth, hping]⟩
  unfold handleRequestFull at hinv ⊢
  revert hinv
  rcases hi : initializeReq h s with ⟨s1, st0⟩
  have hst0 : st0.invoked = none ∧ st0.credDict = none ∧ st0.finished = false := by
    have h0 := initializeReq_st h s
    rw [hi] at h0
    exact h0
  dsimp only
  rcases hpr : prepare h aq s1.flagInitDone req st0 with ⟨st1, e1⟩
  have hi1 : st1.invoked = st0.invoked := by
    have h1 := prepare_invoked h aq s1.flagInitDone req st0
    rw [hpr] at h1
    exact h1
  cases e1 with
  | some e =>
    dsimp only
    intro hinv
    rw [hi1, hst0.1] at hinv
    exact Option.noConfusion hinv
  | none =>
    dsimp only
    by_cases hfz : st1.finished = true
    · rw [if_pos hfz]
      dsimp only
      intro hinv
      rw [hi1, hst0.1] at hinv
      exact Option.noConfusion hinv
    · rw [if_neg hfz]
      dsimp only
      intro hinv
      obtain ⟨c, hpc, hgate, hmeth, hinvp⟩ :=
        prepare_none_unfinished h aq s1.flagInitDone req st0 st1 hst0.2.1 hst0.2.2 hpr
          (Bool.not_eq_true _ |>.mp hfz)
      have hpg := postReq_ghost h req st1
      refine ⟨c, ?_, ?_⟩
      · rw [hpg.1, hgate]
      · rcases hpg.2 with hc | hc
        · rw [hc, hinvp, hst0.1] at hinv
          exact Option.noConfusion hinv
        · rw [hc, hmeth] at hinv
          injection hinv with hm
          exact hm.symm

/-- Witness for C3: the concrete service `hOk` dispatching method "m" with
the always-allowing gate. -/
theorem C3_gate_before_dispatch_witness :
    (∃ c, ((handleRequestFull hOk aqAll svcReady reqM).2).gateCall =
        some ⟨reqM.method, some c, lookupAuth hOk reqM.method, true⟩ ∧
        "m" = reqM.method) ∧
    lookupAuth hOk "ping" = some ["all"] :=
  C3_gate_before_dispatch hOk aqAll svcReady reqM "m" rfl (by decide)

/-- Handler class whose method "blob" returns a raw byte string. -/
def hRawSvc : HandlerClass :=
  ⟨fun _ => none,
   fun m => if m == "blob"
     then some (fun _ => Except.ok (RetVal.pyStr "BINARYDATA")) else none,
   fun _ => false, none⟩

/-- Handler class whose method "blob" returns a raw string that contains the
substring "CallStack". -/
def hRawCS : HandlerClass :=
  ⟨fun _ => none,
   fun m => if m == "blob"
     then some (fun _ => Except.ok (RetVal.pyStr "xxCallStackyy")) else none,
   fun _ => false, none⟩

/-- C8 as stated is false on the code: the raw-mode response is not always
the exact byte sequence produced by the handler.  `__write_return` runs
`if 'CallStack' in dictionary: del dictionary['CallStack']` before the raw
branch, and on a raw string payload containing the substring "CallStack" the
`del` raises TypeError, so Tornado answers with its default 500 error page
instead of the handler's bytes under octet-stream. -/
theorem C8_counterexample :
    (handleRequest hRawCS aqAll svcReady
        { method := "blob", rawContent := some "true",
          peerCredentials := some credAlice }).2 =
      Outcome.errorPage 500 ∧
    Outcome.errorPage 500 ≠
      Outcome.response ⟨200, "application/octet-stream", "xxCallStackyy"⟩ := by
  refine ⟨by decide, by decide⟩

/-- C8 (amended): with the rawContent flag set, a successful call whose
handler produced a raw string not containing the substring "CallStack" is
answered with exactly those bytes, unmodified and without structured
encoding, under Content-Type application/octet-stream; a raw string payload
that does contain "CallStack" instead makes the unconditional `del` in
`__write_return` raise TypeError (so Tornado serves its 500 error page, see
the counterexample); and an Error envelope (a dict) written with the flag
set still ends up as the structured JSON encoding of the (stack-stripped)
envelope — via Tornado's dict handling in `write` — rather than raw
output. -/
theorem C8_raw_mode (h : HandlerClass) (aq : AuthQ) (s : ServiceState) (req : Request)
    (c : CredDict) (s2 : String) (st : ReqState) (d : DDict)
    (hflag : s.flagInitDone = true)
    (hcred : req.peerCredentials = some c)
    (hauth : aq req.method (some c) (lookupAuth h req.method) = true)
    (hexp : lookupExport h req.method = some (fun _ => Except.ok (RetVal.pyStr s2)))
    (hinit : h.initializeRequest = none)
    (hrawp : rawContentOf req.rawContent = true)
    (hcs : pyInStr "CallStack" s2 = false)
    (hraw2 : st.rawContent = true) (hfin : st.finished = false) :
    handleRequest h aq s req =
      ({ s with requests := s.requests + 1 },
       Outcome.response ⟨200, "application/octet-stream", s2⟩) ∧
    (∀ st2 : ReqState, ∀ s3 : String, pyInStr "CallStack" s3 = true →
      writeReturn st2 (RetVal.pyStr s3) = (st2, some typeErrorStrDel)) ∧
    ∃ d2, writeReturn st (RetVal.pyDict d) =
        ({ st with buffered := some ⟨st.httpError, "application/json; charset=UTF-8", encodeDict d2⟩ },
          none) := by
  refine ⟨?_, ?_, ?_⟩
  · unfold handleRequest handleRequestFull initializeReq
    rw [hflag]
    simp only [if_true]
    rw [prepare_good h aq req {} c hcred hauth]
    unfold postReq executeMethod
    simp only [hexp, hinit]
    unfold writeReturn finishReq outcomeOf
    simp [hrawp, hcs]
  · intro st2 s3 h3
    unfold writeReturn
    simp [h3]
  · refine ⟨if dictHasKey d "CallStack" then dictDelKey d "CallStack" else d, ?_⟩
    unfold writeReturn
    simp [hraw2, hfin]

/-- Witness for the amended C8: the concrete binary-producing service under
`rawContent="true"`, the TypeError on a concrete "CallStack"-bearing raw
string, and a concrete Error envelope written in raw mode. -/
theorem C8_raw_mode_witness :
    handleRequest hRawSvc aqAll svcReady
        { method := "blob", rawContent := some "true", peerCredentials := some credAlice } =
      ({ svcReady with requests := svcReady.requests + 1 },
       Outcome.response ⟨200, "application/octet-stream", "BINARYDATA"⟩) ∧
    writeReturn {} (RetVal.pyStr "xxCallStackyy") = ({}, some typeErrorStrDel) ∧
    ∃ d2, writeReturn { rawContent := true } (RetVal.pyDict (S_ERROR "oops")) =
        ({ ({ rawContent := true } : ReqState) with buffered := some ⟨200, "application/json; charset=UTF-8", encodeDict d2⟩ },
          none) := by
  have h := C8_raw_mode hRawSvc aqAll svcReady
    { method := "blob", rawContent := some "true", peerCredentials := some credAlice }
    credAlice "BINARYDATA" { rawContent := true } (S_ERROR "oops")
    rfl rfl rfl rfl rfl rfl (by decide) rfl rfl
  exact ⟨h.1, h.2.1 {} "xxCallStackyy" (by decide), h.2.2⟩

/-- The per-request class-state effect on the good path: with the flag set,
one request bumps the counter by exactly one and changes nothing else. -/
theorem handleRequestFull_svc (h : HandlerClass) (aq : AuthQ) (s : ServiceState)
    (req : Request) (hflag : s.flagInitDone = true) :
    (handleRequestFull h aq s req).1 = { s with requests := s.requests + 1 } := by
  unfold handleRequestFull initializeReq
  rw [hflag]
  simp only [if_true]
  rcases hpr : prepare h aq true req {} with ⟨st1, e1⟩
  cases e1 with
  | some e => simp [hflag]
  | none =>
    dsimp only
    split <;> rfl

/-- C9: requests accepted after successful initialization increment the
per-service request counter exactly once during `initialize`, before
authentication, authorization or method resolution, so N incoming requests
— whatever their individual outcome — increment it by exactly N. -/
theorem C9_request_counter (h : HandlerClass) (aq : AuthQ) (s : ServiceState)
    (reqs : List Request) (hflag : s.flagInitDone = true) :
    (initializeReq h s).1.requests = s.requests + 1 ∧
    (runRequests h aq s reqs).1.requests = s.requests + reqs.length := by
  constructor
  · unfold initializeReq
    rw [hflag]
    simp
  · have main : ∀ (rs : List Request) (t : ServiceState), t.flagInitDone = true →
        (runRequests h aq t rs).1.requests = t.requests + rs.length ∧
        (runRequests h aq t rs).1.flagInitDone = true := by
      intro rs
      induction rs with
      | nil =>
        intro t ht
        simp [runRequests, ht]
      | cons r rs ih =>
        intro t ht
        have hsv : (handleRequest h aq t r).1 = { t with requests := t.requests + 1 } := by
          unfold handleRequest
          rcases hf : handleRequestFull h aq t r with ⟨s1, st⟩
          have h2 := handleRequestFull_svc h aq t r ht
          rw [hf] at h2
          exact h2
        simp only [runRequests]
        rcases hh : handleRequest h aq t r with ⟨s1, o⟩
        dsimp only
        have hs1 : s1 = { t with requests := t.requests + 1 } := by
          rw [hh] at hsv
          exact hsv
        subst hs1
        rcases hr : runRequests h aq { t with requests := t.requests + 1 } rs with ⟨s2, os⟩
        dsimp only
        have hih := ih { t with requests := t.requests + 1 } ht
        rw [hr] at hih
        refine ⟨?_, hih.2⟩
        have h3 : s2.requests = t.requests + 1 + rs.length := hih.1
        rw [List.length_cons]
        omega
    exact (main reqs s hflag).1

/-- Witness for C9: three requests against the ready service — a success, an
unknown method (501) and a missing certificate chain — bump the counter by
exactly three. -/
theorem C9_request_counter_witness :
    (initializeReq hOk svcReady).1.requests = svcReady.requests + 1 ∧
    (runRequests hOk aqAll svcReady
        [reqM, { method := "nosuch", peerCredentials := some credAlice },
         { method := "m" }]).1.requests = svcReady.requests +
      ([reqM, { method := "nosuch", peerCredentials := some credAlice },
        { method := "m" }] : List Request).length :=
  C9_request_counter hOk aqAll svcReady
    [reqM, { method := "nosuch", peerCredentials := some credAlice },
     { method := "m" }] rfl

/-- C10: the rawContent request argument is used as an undecoded string —
any supplied non-empty string, "false" and "0" included, selects raw binary
output (octet-stream, the handler bytes written without JSON encoding), and
structured mode is used exactly when the argument is absent (Python `False`
default) or the empty string. -/
theorem C10_rawContent_truthiness (o : Option String) (s2 : String) (st : ReqState)
    (hne : s2 ≠ "")
    (hraw : st.rawContent = true) (hfin : st.finished = false)
    (hcs : pyInStr "CallStack" s2 = false) :
    rawContentOf (some s2) = true ∧
    rawContentOf (some "false") = true ∧
    rawContentOf (some "0") = true ∧
    rawContentOf none = false ∧
    rawContentOf (some "") = false ∧
    (rawContentOf o = true ↔ ∃ t, o = some t ∧ t ≠ "") ∧
    writeReturn st (RetVal.pyStr s2) =
      ({ st with buffered := some ⟨st.httpError, "application/octet-stream", s2⟩ },
        none) := by
  refine ⟨?_, by decide, by decide, rfl, by decide, ?_, ?_⟩
  · simp [rawContentOf, hne]
  · cases o with
    | none => simp [rawContentOf]
    | some t => simp [rawContentOf]
  · unfold writeReturn
    simp [hcs, hfin, hraw]

/-- Witness for C10 at the string "false" and the supplied value "0". -/
theorem C10_rawContent_truthiness_witness :
    rawContentOf (some "false") = true ∧
    rawContentOf (some "false") = true ∧
    rawContentOf (some "0") = true ∧
    rawContentOf none = false ∧
    rawContentOf (some "") = false ∧
    (rawContentOf (some "0") = true ↔ ∃ t, some "0" = some t ∧ t ≠ "") ∧
    writeReturn { rawContent := true } (RetVal.pyStr "false") =
      ({ ({ rawContent := true } : ReqState) with
          buffered := some ⟨200, "application/octet-stream", "false"⟩ },
        none) :=
  C10_rawContent_truthiness (some "0") "false" { rawContent := true }
    (by decide) rfl rfl (by decide)

/-- C4 is the claim; on the code the failing input takes another path: with
an absent/unparseable chain, `prepare` calls `reportUnauthorizedAccess(401)`
whose logging line evaluates `self.credDict['DN']` on the still-`None`
credentials and raises TypeError before anything is written, so Tornado
answers with its default 500 error page — not the 401 envelope the code's
own comment (and the claim) promise. -/
theorem C4_malformed_chain_bug :
    (prepare hOk aqAll true { method := "m" } {}).2 = some typeErrorNoneSub ∧
    (handleRequest hOk aqAll svcReady { method := "m" }).2 = Outcome.errorPage 500 ∧
    Outcome.errorPage 500 ≠ Outcome.response
      ⟨401, "application/json", encodeDict (S_ERROR_errno ENOAUTH "Unauthorized query")⟩ := by
  refine ⟨by decide, by decide, by decide⟩

end DiracTornado
